import Mathlib

/-!
Verification development for the tiny-chaos-framework repository.

The Python sources are shallowly embedded as executable Lean definitions:

* `safety.py` — `SafetyChecker.is_safe_to_run` and its helpers
  (`_get_environment_policy`, `_is_protected_service`,
  `_check_experiment_parameters`).  A safety violation is represented by its
  `violation_type` string; messages and detail dictionaries carry no
  decision-relevant information and are omitted.  The detected environment
  type and the service-discovery backend are passed as parameters, mirroring
  the cached `_get_environment_info()` result and the
  `ServiceDiscovery.is_service_protected_by_discovery` call.
* `environment_detector.py` — `_classify_environment` and `_match_pattern`.
* `experiments.py` — `ExperimentRunner.start`, `stop` and `emergency_stop`.
  The outcome of each external call (spawning a stress process, running
  `tc`, terminating a process) is an explicit oracle, since the Python code
  only ever branches on whether those calls raise or time out.
* `monitoring.py` — `MonitoringClient.compare_with_baseline`.  Metric values
  are modelled as exact rationals; the properties at stake (presence of a
  division-by-zero guard, which metrics are emitted) are control-flow
  properties independent of floating-point rounding.
* `chaos_framework.py` / `chaos_controller.py` — the decision structure of
  the two run paths (`run_experiment` and the legacy `main`), with the body
  of the try block abstracted by the event it produces (normal completion,
  keyboard interrupt, or an ordinary exception).

Python dictionaries appear as association lists with first-key lookup and
in-place update; optional dictionary fields appear as `Option` with the
source's `.get` defaults applied at the use sites, exactly where the source
applies them.
-/

/-- Lowercasing of a string, character by character (Python `str.lower` on
the ASCII names used by the framework). -/
def strLower (s : String) : String := ⟨s.data.map Char.toLower⟩

/-- Substring test on character lists: `listContains hay needle` is true iff
`needle` occurs contiguously in `hay` (Python `needle in hay`). -/
def listContains : List Char → List Char → Bool
  | _, [] => true
  | [], _ :: _ => false
  | c :: hay, needle => needle.isPrefixOf (c :: hay) || listContains hay needle

/-- Python's `needle in hay` on strings: contiguous substring test. -/
def strContains (hay needle : String) : Bool := listContains hay.data needle.data

/-- Python dict update `d[k] = v` on an association list: replaces the value
at the first occurrence of `k`, or appends `(k, v)` when `k` is absent. -/
def dictInsert {β : Type} : List (String × β) → String → β → List (String × β)
  | [], k, v => [(k, v)]
  | (k', v') :: rest, k, v =>
    if k' = k then (k, v) :: rest else (k', v') :: dictInsert rest k v

/-- Python dict lookup `d.get(k)` / `k in d` on an association list: the
value at the first occurrence of `k`, if any. -/
def dictGet {β : Type} : List (String × β) → String → Option β
  | [], _ => none
  | (k', v') :: rest, k => if k' = k then some v' else dictGet rest k

/-- Python `s.split("=", 1)` guarded by `"=" in s` (used for
`KEY=value` patterns in `environment_detector.py`): yields the text before
the first `=` and everything after it, or `none` when there is no `=`. -/
def splitEq (s : String) : Option (String × String) :=
  if s.data.contains '=' then
    some (⟨s.data.takeWhile (fun c => c != '=')⟩,
          ⟨(s.data.dropWhile (fun c => c != '=')).tail⟩)
  else none

/-- One entry of the `environment_policies` mapping in the safety
configuration (`safety.py`).  Fields are optional because the source reads
them with `policy.get(..., default)`. -/
structure EnvPolicy where
  enabled : Option Bool := none
  max_duration : Option Int := none
  allowed_experiment_types : Option (List String) := none
  protected_services : Option (List String) := none
  require_confirmation : Option Bool := none
deriving DecidableEq, Repr

/-- One entry of the `experiment_safety` mapping in the safety configuration
(per-type parameter ceilings read by `_check_experiment_parameters`). -/
structure TypeSafety where
  max_intensity : Option Int := none
  max_latency_ms : Option Int := none
  allowed_interfaces : Option (List String) := none
deriving DecidableEq, Repr

/-- The parts of the loaded safety configuration that
`SafetyChecker.is_safe_to_run` reads. -/
structure SafetyConfig where
  environment_policies : List (String × EnvPolicy) := []
  experiment_safety : List (String × TypeSafety) := []
deriving DecidableEq, Repr

/-- An experiment request dictionary, with exactly the keys the safety
checker and the runner read.  `target_service` stands for
`experiment.get("target", {}).get("service", "unknown")`'s underlying
value. -/
structure Experiment where
  type : Option String := none
  duration : Option Int := none
  target_service : Option String := none
  intensity : Option Int := none
  memory_mb : Option Int := none
  latency_ms : Option Int := none
  interface : Option String := none
deriving DecidableEq, Repr

/-- The hard-coded "ultimate fallback" policy of
`SafetyChecker._get_environment_policy` (safety.py lines 169-176). -/
def restrictivePolicy : EnvPolicy :=
  { enabled := some false
    max_duration := some 0
    allowed_experiment_types := some []
    protected_services := some ["*"]
    require_confirmation := some true }

/-- `SafetyChecker._get_environment_policy`: exact match on the environment
type, else the `"default"` policy, else the restrictive fallback. -/
def get_environment_policy (cfg : SafetyConfig) (environment_type : String) : EnvPolicy :=
  match dictGet cfg.environment_policies environment_type with
  | some p => p
  | none =>
    match dictGet cfg.environment_policies "default" with
    | some p => p
    | none => restrictivePolicy

/-- `SafetyChecker._is_protected_service`.  `disc` is the
`ServiceDiscovery.is_service_protected_by_discovery` backend.  Note that the
source lowercases only `service_name`, not the policy entries
(`ps in service_name.lower()`). -/
def is_protected_service (service_name : String) (policy : EnvPolicy)
    (disc : String → Bool) : Bool :=
  let ps := policy.protected_services.getD []
  if ps.contains "*" then true
  else if ps.any (fun p => strContains (strLower service_name) p) then true
  else disc service_name

/-- `SafetyChecker._check_experiment_parameters`: per-type parameter checks,
run only when `experiment_safety` has an entry for the experiment's type
(`experiment.get("type")`, i.e. `none` when the key is missing). -/
def check_experiment_parameters (cfg : SafetyConfig) (experiment : Experiment) :
    List String :=
  match experiment.type with
  | none => []
  | some t =>
    match dictGet cfg.experiment_safety t with
    | none => []
    | some type_config =>
      if t = "cpu_stress" then
        let intensity := experiment.intensity.getD 100
        let max_intensity := type_config.max_intensity.getD 100
        if intensity > max_intensity then ["cpu_intensity_exceeded"] else []
      else if t = "memory_exhaust" then
        let memory_mb := experiment.memory_mb.getD 0
        if memory_mb > 32768 then ["memory_amount_excessive"] else []
      else if t = "network_latency" then
        let latency_ms := experiment.latency_ms.getD 0
        let max_latency := type_config.max_latency_ms.getD 5000
        let v1 := if latency_ms > max_latency then ["network_latency_exceeded"] else []
        let iface := experiment.interface.getD ""
        let allowed_interfaces := type_config.allowed_interfaces.getD []
        let v2 :=
          if !allowed_interfaces.isEmpty && !allowed_interfaces.contains iface then
            ["interface_not_allowed"]
          else []
        v1 ++ v2
      else []

/-- `SafetyChecker.is_safe_to_run`: accumulates violations (by kind) from
the enabled flag, the type allowlist, the duration limit, the
protected-service check and the per-type parameter checks, and is safe iff
no violation was collected.  `environment_type` is the cached result of
`_get_environment_info`; `disc` is the service-discovery backend.  The
optional audit logging does not influence the returned decision and is
omitted. -/
def is_safe_to_run (cfg : SafetyConfig) (environment_type : String)
    (disc : String → Bool) (experiment : Experiment) : Bool × List String :=
  let policy := get_environment_policy cfg environment_type
  let v1 := if policy.enabled.getD false then [] else ["environment_disabled"]
  let exp_type := experiment.type.getD "unknown"
  let allowed_types := policy.allowed_experiment_types.getD []
  let v2 :=
    if !allowed_types.contains "*" && !allowed_types.contains exp_type then
      ["experiment_type_forbidden"]
    else []
  let duration := experiment.duration.getD 0
  let max_duration := policy.max_duration.getD 0
  let v3 := if duration > max_duration then ["duration_exceeded"] else []
  let target_service := experiment.target_service.getD "unknown"
  let v4 :=
    if is_protected_service target_service policy disc then ["protected_service"]
    else []
  let v5 := check_experiment_parameters cfg experiment
  let violations := v1 ++ v2 ++ v3 ++ v4 ++ v5
  (violations.isEmpty, violations)

/-- Fuel-driven glob matcher: `*` matches any (possibly empty) character
sequence, `?` matches one character, and literal characters compare
case-insensitively.  This is the anchored, case-insensitive regex built by
`EnvironmentDetector._match_pattern` (`^pattern$` with `*` replaced by `.*`
and `?` by `.`, matched under `re.IGNORECASE`), for patterns built from
literal characters and the two wildcards.  The fuel only drives structural
recursion; `globMatch` supplies enough of it for every input. -/
def globAux : Nat → List Char → List Char → Bool
  | 0, _, _ => false
  | fuel + 1, p, s =>
    match p, s with
    | [], [] => true
    | '*' :: ps, [] => globAux fuel ps []
    | '*' :: ps, c :: s => globAux fuel ps (c :: s) || globAux fuel ('*' :: ps) s
    | '?' :: ps, _ :: s => globAux fuel ps s
    | _ :: _, [] => false
    | [], _ :: _ => false
    | p :: ps, c :: s => (p.toLower == c.toLower) && globAux fuel ps s

/-- Anchored case-insensitive glob match of a whole string against a whole
pattern. -/
def globMatch (pattern text : List Char) : Bool :=
  globAux (pattern.length + text.length + 1) pattern text

/-- `EnvironmentDetector._match_pattern text pattern`. -/
def match_pattern (text pattern : String) : Bool := globMatch pattern.data text.data

/-- One entry of `environment_detection.classification_rules`: a rule name
plus the three optional pattern groups (a missing group is the empty
list). -/
structure ClassificationRule where
  name : String
  hostname : List String := []
  environment_vars : List String := []
  cloud_tags : List String := []
deriving DecidableEq, Repr

/-- Whether one classification rule matches, exactly as the per-rule block
of `EnvironmentDetector._classify_environment` decides `matched`: some
hostname pattern matches the hostname, or some `KEY=value` environment
pattern equals the actual environment variable, or some `KEY=value` cloud
tag pattern equals a collected cloud tag.  `env` is `os.environ.get`;
`tags` is the cloud metadata's tag dictionary. -/
def ruleMatches (hostname : String) (env : String → Option String)
    (tags : List (String × String)) (r : ClassificationRule) : Bool :=
  r.hostname.any (fun p => match_pattern hostname p)
  || r.environment_vars.any (fun ep =>
       match splitEq ep with
       | some kv => env kv.1 == some kv.2
       | none => false)
  || r.cloud_tags.any (fun tp =>
       match splitEq tp with
       | some kv => dictGet tags kv.1 == some kv.2
       | none => false)

/-- `EnvironmentDetector._classify_environment`: walk the configured rules
in declared order, return the first matching rule's name, and fall back to
the sentinel `"default"` when no rule matches (also when no rules are
configured). -/
def classify_environment (rules : List ClassificationRule) (hostname : String)
    (env : String → Option String) (tags : List (String × String)) : String :=
  match rules.find? (ruleMatches hostname env tags) with
  | some r => r.name
  | none => "default"

/-- How the external reversal call for one registry entry behaves when
`ExperimentRunner.stop` reaches it: the graceful path succeeds (`tc qdisc
del` returns 0, or `process.wait(timeout=5)` returns in time), the wait
times out (`subprocess.TimeoutExpired`, process entries only), or the call
raises any other exception (`CalledProcessError` from `check=True`, an OS
error from `terminate`, ...). -/
inductive RevBehavior
  | ok
  | timeout
  | raiseErr
deriving DecidableEq, Repr

/-- One element of `ExperimentRunner.running_experiments`: the recorded
experiment-type tag together with the reversal behavior of the stored
process/interface handle — the only aspect of the handle `stop`
observes. -/
structure RunningEntry where
  kind : String
  rev : RevBehavior
deriving DecidableEq, Repr

namespace ExperimentRunner

/-- The reversal of one registry entry inside `ExperimentRunner.stop`'s
loop: network entries run `tc qdisc del` (success ⇒ `"completed"`), process
entries are terminated and waited on (in time ⇒ `"completed"`, timeout ⇒
kill ⇒ `"force_killed"`); an exception from the external call propagates. -/
def revertEntry (e : RunningEntry) : Except Unit String :=
  if e.kind = "network_latency" then
    match e.rev with
    | RevBehavior.raiseErr => Except.error ()
    | _ => Except.ok "completed"
  else
    match e.rev with
    | RevBehavior.raiseErr => Except.error ()
    | RevBehavior.timeout => Except.ok "force_killed"
    | RevBehavior.ok => Except.ok "completed"

/-- The loop body of `ExperimentRunner.stop`: reverse the entries in order,
accumulating `results[exp_type] = ...`; the first reversal that raises
aborts the loop and discards the local `results` dictionary. -/
def stopGo : List RunningEntry → List (String × String) →
    Except Unit (List (String × String))
  | [], results => Except.ok results
  | e :: rest, results =>
    match revertEntry e with
    | Except.error _ => Except.error ()
    | Except.ok r => stopGo rest (dictInsert results e.kind r)

/-- `ExperimentRunner.stop` as a state transformer on the registry: on
normal completion it returns the results dictionary and clears
`running_experiments` (the assignment `self.running_experiments = []` runs
only after the loop); a propagating exception leaves the registry exactly
as it was. -/
def stop (s : List RunningEntry) :
    Except Unit (List (String × String)) × List RunningEntry :=
  match stopGo s [] with
  | Except.ok results => (Except.ok results, [])
  | Except.error e => (Except.error e, s)

/-- `ExperimentRunner.emergency_stop`: logs a warning and delegates to
`stop`, discarding its return value (the Python method returns `None`). -/
def emergency_stop (s : List RunningEntry) :
    Except Unit Unit × List RunningEntry :=
  let r := stop s
  (r.1.map (fun _ => ()), r.2)

/-- How this `start` call's external subprocess invocations behave:
whether `subprocess.Popen` raises (e.g. the stress binary is missing),
whether `tc qdisc add ... check=True` raises, and how the handle recorded
on success will later behave when reversed. -/
structure StartWorld where
  popenRaises : Bool := false
  tcAddRaises : Bool := false
  handleRev : RevBehavior := RevBehavior.ok
deriving DecidableEq, Repr

/-- The error outcomes of `ExperimentRunner.start`: a missing `type` or
`duration` key (Python `KeyError`), the `ValueError("Unknown experiment
type: ...")` raised for an unregistered type, or a raising external call. -/
inductive StartErr
  | keyError
  | unsupportedType (t : String)
  | injectorFailed
deriving DecidableEq, Repr

/-- `ExperimentRunner.start`: dispatch on `experiment['type']` to the three
injector helpers, each of which appends one `(type, handle)` entry to the
registry on success; every failure path leaves the registry untouched.
The cpu/memory helpers read `experiment['duration']` (a `KeyError` when
absent) before spawning; the network helper does not use the duration. -/
def start (s : List RunningEntry) (w : StartWorld) (experiment : Experiment) :
    Except StartErr Unit × List RunningEntry :=
  match experiment.type with
  | none => (Except.error StartErr.keyError, s)
  | some t =>
    if t = "cpu_stress" then
      match experiment.duration with
      | none => (Except.error StartErr.keyError, s)
      | some _ =>
        if w.popenRaises then (Except.error StartErr.injectorFailed, s)
        else (Except.ok (), s ++ [⟨"cpu_stress", w.handleRev⟩])
    else if t = "memory_exhaust" then
      match experiment.duration with
      | none => (Except.error StartErr.keyError, s)
      | some _ =>
        if w.popenRaises then (Except.error StartErr.injectorFailed, s)
        else (Except.ok (), s ++ [⟨"memory_exhaust", w.handleRev⟩])
    else if t = "network_latency" then
      if w.tcAddRaises then (Except.error StartErr.injectorFailed, s)
      else (Except.ok (), s ++ [⟨"network_latency", w.handleRev⟩])
    else (Except.error (StartErr.unsupportedType t), s)

end ExperimentRunner

/-- One entry of the comparison dictionary built by
`MonitoringClient.compare_with_baseline`. -/
structure MetricComparison where
  baseline : ℚ
  current : ℚ
  change_percent : ℚ
deriving DecidableEq, Repr

/-- The loop of `MonitoringClient.compare_with_baseline`: iterate over the
current metrics; a metric absent from the baseline is skipped; otherwise
compute `(value - baseline) / baseline * 100` — Python raises
`ZeroDivisionError` when the baseline value is `0`, which aborts the loop
and discards the partial comparison dictionary. -/
def compareGo (baseline : List (String × ℚ)) :
    List (String × ℚ) → List (String × MetricComparison) →
    Except Unit (List (String × MetricComparison))
  | [], comparison => Except.ok comparison
  | (metric, value) :: rest, comparison =>
    match dictGet baseline metric with
    | none => compareGo baseline rest comparison
    | some b =>
      if b = 0 then Except.error ()
      else
        compareGo baseline rest
          (dictInsert comparison metric ⟨b, value, (value - b) / b * 100⟩)

/-- `MonitoringClient.compare_with_baseline`, as a function of the stored
baseline mapping and the freshly fetched current mapping. -/
def compare_with_baseline (baseline current : List (String × ℚ)) :
    Except Unit (List (String × MetricComparison)) :=
  compareGo baseline current []

/-- The comparison dictionary `compare_with_baseline` produces when no
shared metric has a zero baseline: one entry per current metric that is
also in the baseline, carrying `(value - baseline) / baseline * 100`. -/
def compareResult (baseline current : List (String × ℚ)) :
    List (String × MetricComparison) :=
  current.filterMap (fun mv =>
    (dictGet baseline mv.1).map (fun b => (mv.1, ⟨b, mv.2, (mv.2 - b) / b * 100⟩)))

/-- What the body of the run's `try` block does once the experiment has been
started: it completes normally, a `KeyboardInterrupt` arrives (during the
`time.sleep(duration)` wait or any other point), or some other exception is
raised. -/
inductive RunEvent
  | normal
  | interrupt
  | errorRaised
deriving DecidableEq, Repr

/-- Observable outcome of one run-path invocation: whether
`ExperimentRunner.start` was reached, whether `emergency_stop` was invoked,
and the process exit code (`none` when an uncaught exception propagates out
of `main` instead of a normal return). -/
structure RunOutcome where
  startInvoked : Bool
  emergencyStopCalled : Bool
  exitCode : Option Int
deriving DecidableEq, Repr

/-- The decision structure of `chaos_framework.run_experiment` (whose result
`main` passes to `sys.exit`): unpack `is_safe, violations`; an unsafe
decision returns 1 before the runner is even constructed; dry-run returns 0
after the safety check; otherwise the `try` block runs start → sleep → stop
(exit 0), `except KeyboardInterrupt` calls `emergency_stop` and returns
130, and `except Exception` calls `emergency_stop` and returns 1. -/
def run_experiment (cfg : SafetyConfig) (environment_type : String)
    (disc : String → Bool) (experiment : Experiment) (dryRun : Bool)
    (ev : RunEvent) : RunOutcome :=
  let r := is_safe_to_run cfg environment_type disc experiment
  if !r.1 then ⟨false, false, some 1⟩
  else if dryRun then ⟨false, false, some 0⟩
  else
    match ev with
    | RunEvent.normal => ⟨true, false, some 0⟩
    | RunEvent.interrupt => ⟨true, true, some 130⟩
    | RunEvent.errorRaised => ⟨true, true, some 1⟩

/-- Python truthiness of the pair returned by `is_safe_to_run`: a 2-tuple
is non-empty, so `bool((is_safe, violations))` is `True` whatever the
decision is. -/
def pyTupleTruthy (_r : Bool × List String) : Bool := true

/-- The decision structure of the legacy `chaos_controller.main`: the guard
is `if not safety.is_safe_to_run(experiment)` — the truthiness of the
returned tuple, not of the `is_safe` flag — and the function returns `None`
in every branch (process exit code 0 on any normal return, since `main()`
is not wrapped in `sys.exit`).  Its `try` block has only
`except Exception`, which a `KeyboardInterrupt` does not match (it derives
from `BaseException`), so an interrupt propagates out of `main` without
reaching `emergency_stop`. -/
def controller_main (cfg : SafetyConfig) (environment_type : String)
    (disc : String → Bool) (experiment : Experiment) (dryRun : Bool)
    (ev : RunEvent) : RunOutcome :=
  if !pyTupleTruthy (is_safe_to_run cfg environment_type disc experiment) then
    ⟨false, false, some 0⟩
  else if dryRun then ⟨false, false, some 0⟩
  else
    match ev with
    | RunEvent.normal => ⟨true, false, some 0⟩
    | RunEvent.interrupt => ⟨true, false, none⟩
    | RunEvent.errorRaised => ⟨true, true, some 0⟩

/-- The matching predicate asserted by the claim for the static
protected-services check, following the spec's words: some entry of
`protected_services` equals or is a substring of the target name ignoring
case (or the wildcard entry is present).  To be compared with the source's
`is_protected_service`. -/
def specProtectedMatch (service_name : String) (ps : List String) : Bool :=
  ps.contains "*"
  || ps.any (fun p =>
       strLower p = strLower service_name
       || strContains (strLower service_name) (strLower p))

/-- The `"default"` policy of the minimal fallback configuration hard-coded
in `SafetyChecker._load_config` (safety.py lines 50-61). -/
def minimalDefaultConfig : SafetyConfig :=
  { environment_policies :=
      [("default",
        { enabled := some false
          max_duration := some 300
          allowed_experiment_types := some []
          protected_services := some ["*"]
          require_confirmation := some true })] }

/-- The "safe run" scenario policy from the spec's testable properties:
experiments enabled in `test`, 600 s ceiling, only `cpu_stress` allowed,
`database` protected. -/
def testPolicy : EnvPolicy :=
  { enabled := some true
    max_duration := some 600
    allowed_experiment_types := some ["cpu_stress"]
    protected_services := some ["database"] }

/-- A configuration holding only the `test` policy (and no
`experiment_safety` section). -/
def testConfig : SafetyConfig := { environment_policies := [("test", testPolicy)] }

/-- A cpu-stress request that the `test` policy authorizes. -/
def cpuRequest : Experiment :=
  { type := some "cpu_stress"
    duration := some 300
    target_service := some "web"
    intensity := some 50 }

/-- The same request with a 900 s duration, past the 600 s ceiling. -/
def longRequest : Experiment := { cpuRequest with duration := some 900 }

/-- The same request with an absurdly large intensity. -/
def bigCpuRequest : Experiment := { cpuRequest with intensity := some 1000000 }

/-- A request with an experiment type no injector is registered for. -/
def unknownTypeRequest : Experiment :=
  { type := some "unknown_type", duration := some 60 }

/-- A classification rule matching hostnames of the shape `test-*`. -/
def hostnameRule : ClassificationRule := { name := "test_env", hostname := ["test-*"] }

/-- A classification rule matching the environment variable `ENV=test`. -/
def envVarRule : ClassificationRule :=
  { name := "env_test", environment_vars := ["ENV=test"] }

/-- A classification rule matching hostnames of the shape `prod-*`. -/
def prodRule : ClassificationRule := { name := "production", hostname := ["prod-*"] }

/-- An environment in which the variable `ENV` is set to `test`. -/
def envWithTest : String → Option String :=
  fun k => if k = "ENV" then some "test" else none

/-- A registry entry whose reversal call raises. -/
def raisingCpuEntry : RunningEntry := ⟨"cpu_stress", RevBehavior.raiseErr⟩

/-- A registry entry whose reversal terminates gracefully. -/
def okMemEntry : RunningEntry := ⟨"memory_exhaust", RevBehavior.ok⟩

/-- A process entry whose graceful wait times out, forcing a kill. -/
def timeoutCpuEntry : RunningEntry := ⟨"cpu_stress", RevBehavior.timeout⟩

/-- A network entry whose `tc qdisc del` succeeds. -/
def okNetEntry : RunningEntry := ⟨"network_latency", RevBehavior.ok⟩

/-- A policy whose protected-services list carries an uppercase entry. -/
def upperDbPolicy : EnvPolicy := { protected_services := some ["DB"] }

theorem revertEntry_ok_of_ne_raise (e : RunningEntry)
    (h : e.rev ≠ RevBehavior.raiseErr) :
    ∃ r, ExperimentRunner.revertEntry e = Except.ok r := by
  unfold ExperimentRunner.revertEntry
  rcases hr : e.rev with _ | _ | _
  · split <;> exact ⟨_, rfl⟩
  · split <;> exact ⟨_, rfl⟩
  · exact absurd hr h

theorem revertEntry_raise (e : RunningEntry) (h : e.rev = RevBehavior.raiseErr) :
    ExperimentRunner.revertEntry e = Except.error () := by
  unfold ExperimentRunner.revertEntry
  rw [h]
  split <;> rfl

theorem mem_keys_dictInsert {β : Type} (acc : List (String × β)) (k : String)
    (v : β) (x : String) (hx : x ∈ (dictInsert acc k v).map Prod.fst) :
    x = k ∨ x ∈ acc.map Prod.fst := by
  induction acc with
  | nil => simpa [dictInsert] using hx
  | cons hd tl ih =>
    rw [dictInsert] at hx
    by_cases hk : hd.1 = k
    · rw [if_pos hk] at hx
      simp only [List.map_cons, List.mem_cons] at hx ⊢
      tauto
    · rw [if_neg hk] at hx
      simp only [List.map_cons, List.mem_cons] at hx ⊢
      rcases hx with hx | hx
      · exact Or.inr (Or.inl hx)
      · rcases ih hx with h | h
        · exact Or.inl h
        · exact Or.inr (Or.inr h)

theorem nodup_keys_dictInsert {β : Type} (acc : List (String × β)) (k : String)
    (v : β) (h : (acc.map Prod.fst).Nodup) :
    ((dictInsert acc k v).map Prod.fst).Nodup := by
  induction acc with
  | nil => simp [dictInsert]
  | cons hd tl ih =>
    rw [dictInsert]
    rw [List.map_cons, List.nodup_cons] at h
    by_cases hk : hd.1 = k
    · rw [if_pos hk]
      rw [List.map_cons, List.nodup_cons]
      exact ⟨hk ▸ h.1, h.2⟩
    · rw [if_neg hk]
      rw [List.map_cons, List.nodup_cons]
      refine ⟨fun hmem => ?_, ih h.2⟩
      rcases mem_keys_dictInsert tl k v hd.1 hmem with h1 | h1
      · exact hk h1
      · exact h.1 h1

theorem stopGo_ok_of_no_raise (s : List RunningEntry)
    (h : ∀ e ∈ s, e.rev ≠ RevBehavior.raiseErr) :
    ∀ acc : List (String × String), ∃ res,
      ExperimentRunner.stopGo s acc = Except.ok res ∧
      ((acc.map Prod.fst).Nodup → (res.map Prod.fst).Nodup) := by
  induction s with
  | nil => exact fun acc => ⟨acc, rfl, id⟩
  | cons e rest ih =>
    intro acc
    obtain ⟨r, hr⟩ := revertEntry_ok_of_ne_raise e (h e (List.mem_cons_self _ _))
    obtain ⟨res, hres, hnd⟩ :=
      ih (fun x hx => h x (List.mem_cons_of_mem _ hx)) (dictInsert acc e.kind r)
    refine ⟨res, ?_, fun hacc => hnd (nodup_keys_dictInsert acc e.kind r hacc)⟩
    simp only [ExperimentRunner.stopGo, hr]
    exact hres

theorem stopGo_error_of_raise (s : List RunningEntry)
    (h : ∃ e ∈ s, e.rev = RevBehavior.raiseErr) :
    ∀ acc : List (String × String),
      ExperimentRunner.stopGo s acc = Except.error () := by
  induction s with
  | nil =>
    rcases h with ⟨e, he, _⟩
    exact absurd he (List.not_mem_nil e)
  | cons e rest ih =>
    intro acc
    by_cases hr : e.rev = RevBehavior.raiseErr
    · simp only [ExperimentRunner.stopGo, revertEntry_raise e hr]
    · obtain ⟨r, hrr⟩ := revertEntry_ok_of_ne_raise e hr
      rcases h with ⟨x, hx, hxr⟩
      rcases List.mem_cons.1 hx with rfl | hx
      · exact absurd hxr hr
      · simp only [ExperimentRunner.stopGo, hrr]
        exact ih ⟨x, hx, hxr⟩ _

/-- C2 counterexample: a registry whose first entry's reversal raises.
`stop` propagates the error instead of recording a `failed` result, never
attempts the second entry's reversal, and leaves the registry exactly as it
was — it is not cleared, contradicting the claimed best-effort behavior. -/
theorem stop_reversal_abort_counterexample :
    ExperimentRunner.stop [raisingCpuEntry, okMemEntry] =
      (Except.error (), [raisingCpuEntry, okMemEntry])
  ∧ (ExperimentRunner.stop [raisingCpuEntry, okMemEntry]).2 ≠ [] := by
  constructor
  · rfl
  · decide

/-- C2 (amended): `stop` attempts reversals in registry order but is not
best-effort: when no entry's reversal raises, it returns one result per
experiment kind and clears the registry; the first reversal that raises
aborts `stop`, no `failed` result is recorded, the remaining entries are
not attempted, and the registry is left unchanged (not cleared). -/
theorem stop_abort_on_reversal_failure (s : List RunningEntry) :
    ((∀ e ∈ s, e.rev ≠ RevBehavior.raiseErr) →
      ∃ res, ExperimentRunner.stop s = (Except.ok res, []) ∧
        (res.map Prod.fst).Nodup)
  ∧ ((∃ e ∈ s, e.rev = RevBehavior.raiseErr) →
      ExperimentRunner.stop s = (Except.error (), s)) := by
  constructor
  · intro h
    obtain ⟨res, hres, hnd⟩ := stopGo_ok_of_no_raise s h []
    refine ⟨res, ?_, hnd (by simp)⟩
    simp only [ExperimentRunner.stop, hres]
  · intro h
    simp only [ExperimentRunner.stop, stopGo_error_of_raise s h []]

/-- Concrete instance of the amended C2 statement: a raise-free registry is
fully reversed and cleared, and a registry with a raising first entry is
left untouched by the aborted `stop`. -/
theorem stop_abort_on_reversal_failure_witness :
    (∃ res, ExperimentRunner.stop [timeoutCpuEntry, okNetEntry] =
        (Except.ok res, []) ∧ (res.map Prod.fst).Nodup)
  ∧ ExperimentRunner.stop [raisingCpuEntry, okNetEntry] =
      (Except.error (), [raisingCpuEntry, okNetEntry]) :=
  ⟨(stop_abort_on_reversal_failure [timeoutCpuEntry, okNetEntry]).1 (by decide),
   (stop_abort_on_reversal_failure [raisingCpuEntry, okNetEntry]).2
     ⟨raisingCpuEntry, by decide, rfl⟩⟩

/-- C9: `emergency_stop` on the empty registry (e.g. when `start` never
completed) succeeds as a no-op and leaves the registry empty; and whenever
an `emergency_stop` returns normally, the registry is empty afterwards, so
an immediately following `emergency_stop` is again a successful no-op —
calling it twice in a row is safe and idempotent. -/
theorem emergency_stop_idempotent_no_op (s : List RunningEntry) :
    ExperimentRunner.emergency_stop [] = (Except.ok (), [])
  ∧ ((ExperimentRunner.emergency_stop s).1 = Except.ok () →
      (ExperimentRunner.emergency_stop s).2 = []
      ∧ ExperimentRunner.emergency_stop (ExperimentRunner.emergency_stop s).2 =
          (Except.ok (), [])) := by
  constructor
  · rfl
  · intro h
    have h2 : (ExperimentRunner.emergency_stop s).2 = [] := by
      rcases hg : ExperimentRunner.stopGo s [] with e | res
      · simp [ExperimentRunner.emergency_stop, ExperimentRunner.stop, hg,
              Except.map] at h
      · simp [ExperimentRunner.emergency_stop, ExperimentRunner.stop, hg]
    exact ⟨h2, by rw [h2]; rfl⟩

/-- Concrete instance of C9: two `emergency_stop` calls in a row starting
from the empty registry both succeed with the no-op result. -/
theorem emergency_stop_idempotent_no_op_witness :
    ExperimentRunner.emergency_stop [] = (Except.ok (), [])
  ∧ (ExperimentRunner.emergency_stop [timeoutCpuEntry]).2 = []
  ∧ ExperimentRunner.emergency_stop
      (ExperimentRunner.emergency_stop [timeoutCpuEntry]).2 = (Except.ok (), []) :=
  ⟨(emergency_stop_idempotent_no_op []).1,
   ((emergency_stop_idempotent_no_op [timeoutCpuEntry]).2 rfl).1,
   ((emergency_stop_idempotent_no_op [timeoutCpuEntry]).2 rfl).2⟩

/-- C8: starting an experiment whose type has no registered injector fails
with the unsupported-type error (`ValueError("Unknown experiment type:
...")`) propagated to the caller, and the running-experiment registry is
returned unchanged — in particular an empty registry stays of size 0. -/
theorem start_unsupported_type_rejected (s : List RunningEntry)
    (w : ExperimentRunner.StartWorld) (experiment : Experiment) (t : String)
    (h1 : experiment.type = some t) (h2 : t ≠ "cpu_stress")
    (h3 : t ≠ "memory_exhaust") (h4 : t ≠ "network_latency") :
    ExperimentRunner.start s w experiment =
      (Except.error (ExperimentRunner.StartErr.unsupportedType t), s) := by
  simp [ExperimentRunner.start, h1, h2, h3, h4]

/-- Concrete instance of C8, the spec's scenario: `Start({type:
"unknown_type"})` on the empty registry fails and the registry stays of
size 0. -/
theorem start_unsupported_type_rejected_witness :
    unknownTypeRequest.type = some "unknown_type"
  ∧ ExperimentRunner.start [] {} unknownTypeRequest =
      (Except.error (ExperimentRunner.StartErr.unsupportedType "unknown_type"), []) :=
  ⟨rfl,
   start_unsupported_type_rejected [] {} unknownTypeRequest "unknown_type" rfl
     (by decide) (by decide) (by decide)⟩

/-- C4: whenever the request's duration exceeds the resolved policy's
`max_duration`, the violation list returned by `is_safe_to_run` contains
`duration_exceeded` — for every configuration, environment, discovery
backend and request, whatever other violations are present: the duration
check runs unconditionally and evaluation does not short-circuit. -/
theorem duration_exceeded_always_flagged (cfg : SafetyConfig)
    (environment_type : String) (disc : String → Bool) (experiment : Experiment)
    (h : experiment.duration.getD 0 >
        (get_environment_policy cfg environment_type).max_duration.getD 0) :
    "duration_exceeded" ∈ (is_safe_to_run cfg environment_type disc experiment).2 := by
  simp [is_safe_to_run, h]

/-- Concrete instance of C4, the spec's blocked-run scenario: a 900 s
request against the 600 s `test` policy is flagged `duration_exceeded`. -/
theorem duration_exceeded_always_flagged_witness :
    longRequest.duration.getD 0 >
      (get_environment_policy testConfig "test").max_duration.getD 0
  ∧ "duration_exceeded" ∈
      (is_safe_to_run testConfig "test" (fun _ => false) longRequest).2 :=
  ⟨by decide,
   duration_exceeded_always_flagged testConfig "test" (fun _ => false) longRequest
     (by decide)⟩

theorem mem_core_violations (cfg : SafetyConfig) (environment_type : String)
    (disc : String → Bool) (experiment : Experiment) (x : String)
    (hx : x ∈ (is_safe_to_run cfg environment_type disc experiment).2) :
    x = "environment_disabled" ∨ x = "experiment_type_forbidden"
    ∨ x = "duration_exceeded" ∨ x = "protected_service"
    ∨ x ∈ check_experiment_parameters cfg experiment := by
  simp only [is_safe_to_run] at hx
  split_ifs at hx <;> simp_all [List.mem_append] <;> tauto

/-- C10: when the configuration's `experiment_safety` section has no entry
for the request's type, `_check_experiment_parameters` emits nothing, and
consequently none of the four per-type parameter violation kinds can appear
in the decision of `is_safe_to_run`, whatever the request's intensity,
memory amount, latency or interface. -/
theorem no_param_checks_without_type_entry (cfg : SafetyConfig)
    (environment_type : String) (disc : String → Bool) (experiment : Experiment)
    (h : ∀ t, experiment.type = some t → dictGet cfg.experiment_safety t = none) :
    check_experiment_parameters cfg experiment = []
  ∧ "cpu_intensity_exceeded" ∉
      (is_safe_to_run cfg environment_type disc experiment).2
  ∧ "memory_amount_excessive" ∉
      (is_safe_to_run cfg environment_type disc experiment).2
  ∧ "network_latency_exceeded" ∉
      (is_safe_to_run cfg environment_type disc experiment).2
  ∧ "interface_not_allowed" ∉
      (is_safe_to_run cfg environment_type disc experiment).2 := by
  have hp : check_experiment_parameters cfg experiment = [] := by
    rcases ht : experiment.type with _ | t
    · simp [check_experiment_parameters, ht]
    · simp [check_experiment_parameters, ht, h t ht]
  have hmain : ∀ x : String,
      x ∈ (is_safe_to_run cfg environment_type disc experiment).2 →
      x = "environment_disabled" ∨ x = "experiment_type_forbidden"
      ∨ x = "duration_exceeded" ∨ x = "protected_service" := by
    intro x hx
    rcases mem_core_violations cfg environment_type disc experiment x hx with
      h1 | h1 | h1 | h1 | h1
    · exact Or.inl h1
    · exact Or.inr (Or.inl h1)
    · exact Or.inr (Or.inr (Or.inl h1))
    · exact Or.inr (Or.inr (Or.inr h1))
    · rw [hp] at h1
      exact absurd h1 (List.not_mem_nil _)
  refine ⟨hp, fun hm => ?_, fun hm => ?_, fun hm => ?_, fun hm => ?_⟩ <;>
    rcases hmain _ hm with h1 | h1 | h1 | h1 <;> revert h1 <;> decide

/-- Concrete instance of C10: a cpu-stress request with intensity 1000000
raises no `cpu_intensity_exceeded` violation under a configuration whose
`experiment_safety` section is empty. -/
theorem no_param_checks_without_type_entry_witness :
    check_experiment_parameters testConfig bigCpuRequest = []
  ∧ "cpu_intensity_exceeded" ∉
      (is_safe_to_run testConfig "test" (fun _ => false) bigCpuRequest).2 :=
  ⟨(no_param_checks_without_type_entry testConfig "test" (fun _ => false)
      bigCpuRequest (fun _ _ => rfl)).1,
   (no_param_checks_without_type_entry testConfig "test" (fun _ => false)
      bigCpuRequest (fun _ _ => rfl)).2.1⟩

/-- C1: evidence for the legacy run path's broken safety gate.  Under the
minimal fallback configuration every experiment is unauthorized
(`is_safe_to_run` returns `false` with violations), and
`chaos_framework.run_experiment` duly refuses to start and exits 1 — but
`chaos_controller.main` tests the truthiness of the returned tuple, which
is always truthy, so the same unauthorized request is started anyway and
the process exits 0. -/
theorem controller_safety_gate_ineffective :
    (is_safe_to_run minimalDefaultConfig "default" (fun _ => false) cpuRequest).1
      = false
  ∧ "environment_disabled" ∈
      (is_safe_to_run minimalDefaultConfig "default" (fun _ => false) cpuRequest).2
  ∧ run_experiment minimalDefaultConfig "default" (fun _ => false) cpuRequest
      false RunEvent.normal = ⟨false, false, some 1⟩
  ∧ controller_main minimalDefaultConfig "default" (fun _ => false) cpuRequest
      false RunEvent.normal = ⟨true, false, some 0⟩ := by
  refine ⟨by decide, by decide, by decide, by decide⟩

/-- C3: evidence that the interrupt-to-emergency-stop routing holds only on
the `chaos_framework` path.  For an authorized request, a keyboard
interrupt after `start` makes `run_experiment` call `emergency_stop` and
return 130, while the legacy `chaos_controller.main` — whose only handler
is `except Exception` — lets the interrupt propagate without ever calling
`emergency_stop`, leaving the started experiment's side effects active. -/
theorem controller_interrupt_bypasses_emergency_stop :
    (is_safe_to_run testConfig "test" (fun _ => false) cpuRequest).1 = true
  ∧ run_experiment testConfig "test" (fun _ => false) cpuRequest
      false RunEvent.interrupt = ⟨true, true, some 130⟩
  ∧ controller_main testConfig "test" (fun _ => false) cpuRequest
      false RunEvent.interrupt = ⟨true, false, none⟩ := by
  refine ⟨by decide, by decide, by decide⟩

/-- C5 counterexample: the policy entry `"DB"` equals-or-is-a-substring of
the target name `"MYDB"` ignoring case, so the claim's case-insensitive
matching predicate flags the request — but `_is_protected_service`
lowercases only the target name and uses the entry verbatim, so it does
not flag it. -/
theorem protected_service_case_counterexample :
    is_protected_service "MYDB" upperDbPolicy (fun _ => false) = false
  ∧ specProtectedMatch "MYDB" ["DB"] = true := by
  refine ⟨by decide, by decide⟩

/-- C5 (amended): the static protected-services check is case-insensitive
only in the target name — each policy entry is used verbatim.  A request is
flagged exactly when the wildcard `"*"` is an entry of
`protected_services`, or some entry is, case-sensitively, a substring of
the lowercased target name, or service discovery reports the service
protected; in particular a policy containing the wildcard marks every
service name protected, including names appearing nowhere in
configuration. -/
theorem is_protected_service_characterization (service_name : String)
    (policy : EnvPolicy) (disc : String → Bool) :
    is_protected_service service_name policy disc = true ↔
      ("*" ∈ policy.protected_services.getD []
       ∨ (∃ p ∈ policy.protected_services.getD [],
            strContains (strLower service_name) p = true)
       ∨ disc service_name = true) := by
  constructor
  · intro h
    simp only [is_protected_service] at h
    split_ifs at h with h1 h2
    · exact Or.inl (by simpa using h1)
    · exact Or.inr (Or.inl (by simpa using h2))
    · exact Or.inr (Or.inr h)
  · rintro (hm | hm | hm) <;> simp only [is_protected_service] <;>
      split_ifs with h1 h2 <;>
      first
        | rfl
        | exact absurd (by simpa using hm) h2
        | exact absurd (by simpa using hm) h1
        | exact hm

/-- Concrete instance of the amended C5 statement: the restrictive fallback
policy's wildcard entry protects a service name that appears in no
configuration. -/
theorem is_protected_service_characterization_witness :
    is_protected_service "never-configured-service" restrictivePolicy
      (fun _ => false) = true :=
  (is_protected_service_characterization "never-configured-service"
      restrictivePolicy (fun _ => false)).mpr (Or.inl (by decide))

theorem dictGet_append_right {β : Type} (l1 l2 : List (String × β)) (k : String)
    (h : dictGet l1 k = none) : dictGet (l1 ++ l2) k = dictGet l2 k := by
  induction l1 with
  | nil => rfl
  | cons hd tl ih =>
    by_cases hk : hd.1 = k
    · rw [dictGet, if_pos hk] at h
      exact absurd h (by simp)
    · rw [dictGet, if_neg hk] at h
      rw [List.cons_append, dictGet, if_neg hk]
      exact ih h

theorem dictInsert_eq_append {β : Type} (acc : List (String × β)) (k : String)
    (v : β) (h : dictGet acc k = none) : dictInsert acc k v = acc ++ [(k, v)] := by
  induction acc with
  | nil => rfl
  | cons hd tl ih =>
    by_cases hk : hd.1 = k
    · rw [dictGet, if_pos hk] at h
      exact absurd h (by simp)
    · rw [dictGet, if_neg hk] at h
      rw [dictInsert, if_neg hk, List.cons_append, ih h]

theorem compareGo_ok (baseline current : List (String × ℚ)) :
    ∀ acc : List (String × MetricComparison),
      (∀ p ∈ current, dictGet baseline p.1 ≠ some 0) →
      (∀ p ∈ current, dictGet acc p.1 = none) →
      (current.map Prod.fst).Nodup →
      compareGo baseline current acc =
        Except.ok (acc ++ compareResult baseline current) := by
  induction current with
  | nil =>
    intro acc _ _ _
    simp [compareGo, compareResult]
  | cons mv rest ih =>
    obtain ⟨m, v⟩ := mv
    intro acc hz hfresh hnd
    rw [List.map_cons, List.nodup_cons] at hnd
    rcases hb : dictGet baseline m with _ | b
    · have hres : compareResult baseline ((m, v) :: rest) =
          compareResult baseline rest := by
        simp [compareResult, hb]
      rw [hres]
      simp only [compareGo, hb]
      exact ih acc (fun p hp => hz p (List.mem_cons_of_mem _ hp))
        (fun p hp => hfresh p (List.mem_cons_of_mem _ hp)) hnd.2
    · have hbz : b ≠ 0 := by
        intro he
        exact hz (m, v) (List.mem_cons_self _ _) (by rw [hb, he])
      have hfa : dictGet acc m = none := hfresh (m, v) (List.mem_cons_self _ _)
      have hres : compareResult baseline ((m, v) :: rest) =
          (m, ⟨b, v, (v - b) / b * 100⟩) :: compareResult baseline rest := by
        simp [compareResult, hb]
      rw [hres]
      simp only [compareGo, hb, if_neg hbz]
      rw [dictInsert_eq_append acc m _ hfa]
      have hstep := ih (acc ++ [(m, ⟨b, v, (v - b) / b * 100⟩)])
        (fun p hp => hz p (List.mem_cons_of_mem _ hp))
        (fun p hp => by
          rw [dictGet_append_right acc _ _ (hfresh p (List.mem_cons_of_mem _ hp))]
          have hp1 : p.1 ∈ rest.map Prod.fst := List.mem_map_of_mem Prod.fst hp
          have hne : m ≠ p.1 := fun he => hnd.1 (by rw [he]; exact hp1)
          simp [dictGet, hne])
        hnd.2
      rw [hstep, List.append_assoc]
      rfl

theorem compareGo_error (baseline current : List (String × ℚ)) :
    ∀ acc : List (String × MetricComparison),
      (∃ p ∈ current, dictGet baseline p.1 = some 0) →
      compareGo baseline current acc = Except.error () := by
  induction current with
  | nil =>
    intro acc h
    rcases h with ⟨p, hp, _⟩
    exact absurd hp (List.not_mem_nil p)
  | cons mv rest ih =>
    obtain ⟨m, v⟩ := mv
    intro acc h
    rcases hb : dictGet baseline m with _ | b
    · simp only [compareGo, hb]
      apply ih
      rcases h with ⟨p, hp, hp0⟩
      rcases List.mem_cons.1 hp with rfl | hp
      · rw [hb] at hp0
        exact absurd hp0 (by simp)
      · exact ⟨p, hp, hp0⟩
    · by_cases hbz : b = 0
      · simp only [compareGo, hb, if_pos hbz]
      · simp only [compareGo, hb, if_neg hbz]
        apply ih
        rcases h with ⟨p, hp, hp0⟩
        rcases List.mem_cons.1 hp with rfl | hp
        · rw [hb] at hp0
          simp only [Option.some.injEq] at hp0
          exact absurd hp0 hbz
        · exact ⟨p, hp, hp0⟩

/-- C6 counterexample: a metric present in both mappings with baseline
value 0 makes `compare_with_baseline` raise `ZeroDivisionError` — the
metric is neither omitted nor flagged and no comparison mapping is
produced, so the function is not total. -/
theorem compare_zero_baseline_counterexample :
    compare_with_baseline [("error_rate", 0)] [("error_rate", 1)] =
      Except.error () := rfl

/-- C6 (amended): for each metric present in both mappings the comparison
computes `(current - baseline) / baseline * 100`, and metrics absent from
the baseline are skipped — but there is no division-by-zero guard: when
every shared metric has a nonzero baseline the full comparison mapping is
returned, while a baseline value of 0 for any shared metric raises an
error that aborts the whole comparison instead of omitting or flagging
that metric. -/
theorem compare_with_baseline_characterization
    (baseline current : List (String × ℚ))
    (hnd : (current.map Prod.fst).Nodup) :
    ((∀ p ∈ current, dictGet baseline p.1 ≠ some 0) →
      compare_with_baseline baseline current =
        Except.ok (compareResult baseline current))
  ∧ ((∃ p ∈ current, dictGet baseline p.1 = some 0) →
      compare_with_baseline baseline current = Except.error ()) := by
  constructor
  · intro hz
    have hr := compareGo_ok baseline current [] hz (fun _ _ => rfl) hnd
    simpa [compare_with_baseline] using hr
  · intro hex
    have hr := compareGo_error baseline current [] hex
    simpa [compare_with_baseline] using hr

/-- Concrete instance of the amended C6 statement: nonzero baselines give
the full comparison mapping, while a zero baseline for a shared metric
turns the whole comparison into an error. -/
theorem compare_with_baseline_characterization_witness :
    compare_with_baseline [("http_requests_total", 100), ("latency_ms", 50)]
        [("http_requests_total", 120), ("latency_ms", 75)] =
      Except.ok (compareResult
        [("http_requests_total", 100), ("latency_ms", 50)]
        [("http_requests_total", 120), ("latency_ms", 75)])
  ∧ compare_with_baseline [("error_rate", 0), ("latency_ms", 50)]
      [("latency_ms", 60), ("error_rate", 3)] = Except.error () :=
  ⟨(compare_with_baseline_characterization _ _ (by decide)).1 (by decide),
   (compare_with_baseline_characterization _ _ (by decide)).2 (by decide)⟩

/-- C7: environment classification is first-match-wins in declared rule
order: whenever the first configured rule matches the hostname via its
(case-insensitive, anchored) glob patterns, its name is returned whatever
the remaining rules — in particular a later rule that would match via
environment-variable equality; and when no configured rule matches, the
sentinel type `"default"` is returned. -/
theorem classify_first_match_wins (r : ClassificationRule)
    (rest rules : List ClassificationRule) (hostname : String)
    (env : String → Option String) (tags : List (String × String))
    (h : r.hostname.any (fun p => match_pattern hostname p) = true) :
    classify_environment (r :: rest) hostname env tags = r.name
  ∧ ((∀ r2 ∈ rules, ruleMatches hostname env tags r2 = false) →
      classify_environment rules hostname env tags = "default") := by
  constructor
  · have hm : ruleMatches hostname env tags r = true := by
      simp only [ruleMatches, h, Bool.true_or]
    unfold classify_environment
    rw [List.find?_cons_of_pos _ hm]
  · intro hnone
    have hfind : rules.find? (ruleMatches hostname env tags) = none :=
      List.find?_eq_none.mpr (fun x hx => by simp [hnone x hx])
    unfold classify_environment
    rw [hfind]

/-- Concrete instance of C7, the spec's precedence scenario: the hostname
rule `test-*` matches the hostname `TEST-01` case-insensitively while the
later rule would also match via `ENV=test`; the earlier rule's name wins.
With only the prod rule configured, nothing matches the same inputs and
the sentinel `"default"` is returned. -/
theorem classify_first_match_wins_witness :
    ruleMatches "TEST-01" envWithTest [] envVarRule = true
  ∧ classify_environment [hostnameRule, envVarRule] "TEST-01" envWithTest []
      = "test_env"
  ∧ classify_environment [prodRule] "TEST-01" envWithTest [] = "default" :=
  ⟨by decide,
   (classify_first_match_wins hostnameRule [envVarRule] [prodRule] "TEST-01"
      envWithTest [] (by decide)).1,
   (classify_first_match_wins hostnameRule [envVarRule] [prodRule] "TEST-01"
      envWithTest [] (by decide)).2 (by decide)⟩
